import Mathlib

/-!
Verification of the tap-windows interface-lifecycle library.

The development shallowly embeds the lifecycle state machine of
`src/iface.rs`, `src/lib.rs` and the safe FFI wrappers of `src/ffi.rs`:

* the `_NET_LUID_LH` bit-packing (`setBitsField`, `packLuid`) models the
  `c2rust_bitfields` setters on the 64-bit value, with machine words as
  `Nat` and explicit `% 2 ^ w` truncation at the field widths;
* OS interactions are modelled by environments (`CreateEnv`, `ScanEnv`)
  that fix the outcome of every fallible OS call, and the functions
  return a result together with a trace of resource/installer events, so
  that rollback and destruction discipline can be stated;
* `std::io` errors are the four kinds the library actually produces.
-/

namespace TapWindows

/-- The error kinds produced by the library (`std::io::ErrorKind` as used
in `src/iface.rs` / `src/ffi.rs` / `src/lib.rs`). -/
inductive IoError where
  | notFound (msg : String)
  | timedOut (msg : String)
  | osError (code : Nat)
  | other (msg : String)
deriving DecidableEq, Repr

/-! ## Bit packing of `_NET_LUID_LH` (src/iface.rs lines 25–34)

The `c2rust_bitfields` setter for a field at bits `lo ..= lo+width-1`
replaces those bits of the 64-bit value with the low `width` bits of the
argument, leaving the rest untouched.  On `Nat` this is the following
arithmetic. -/

/-- Write `x` (truncated to `width` bits) into bits `lo ..= lo+width-1`
of `v`, leaving bits below `lo` and at or above `lo+width` unchanged. -/
def setBitsField (v lo width x : Nat) : Nat :=
  v % 2 ^ lo + x % 2 ^ width * 2 ^ lo + v / 2 ^ (lo + width) * 2 ^ (lo + width)

/-- Read bits `lo ..= lo+width-1` of `v`. -/
def getBitsField (v lo width : Nat) : Nat :=
  v / 2 ^ lo % 2 ^ width

/-- `set_IfType`: bits 48..=63 of `_NET_LUID_LH`. -/
def setIfType (v x : Nat) : Nat := setBitsField v 48 16 x

/-- `set_NetLuidIndex`: bits 24..=47 of `_NET_LUID_LH`. -/
def setNetLuidIndex (v x : Nat) : Nat := setBitsField v 24 24 x

/-- `IfType` accessor: bits 48..=63. -/
def getIfType (v : Nat) : Nat := getBitsField v 48 16

/-- `NetLuidIndex` accessor: bits 24..=47. -/
def getNetLuidIndex (v : Nat) : Nat := getBitsField v 24 24

/-- `Reserved` accessor: bits 0..=23. -/
def getReserved (v : Nat) : Nat := getBitsField v 0 24

/-- The identifier built at the end of `create_interface`
(src/iface.rs lines 132–138): starting from `Value = 0`, set `IfType`
then `NetLuidIndex`. -/
def packLuid (ifType luidIndex : Nat) : Nat :=
  setNetLuidIndex (setIfType 0 ifType) luidIndex

/-! ## Case-insensitive comparison (`str::eq_ignore_ascii_case`) -/

/-- ASCII lower-casing of one character, as done byte-wise by
`eq_ignore_ascii_case`. -/
def asciiLower (c : Char) : Char :=
  if 'A' ≤ c ∧ c ≤ 'Z' then Char.ofNat (c.toNat + 32) else c

/-- `a.eq_ignore_ascii_case(b)`. -/
def eqIgnoreAsciiCase (a b : String) : Bool :=
  a.data.map asciiLower == b.data.map asciiLower

/-! ## OS events and environments

Fallible OS calls are modelled by environment fields fixing their
outcome; resource management and installer invocations are recorded in
a trace of events so claims about rollback and destruction order can be
stated. -/

/-- `SetupDiCallClassInstaller` step codes used by the library. -/
inductive InstallStep where
  | registerDevice
  | registerCoinstallers
  | installInterfaces
  | installDevice
  | remove
deriving DecidableEq, Repr

/-- Observable resource / installer events of one lifecycle operation. -/
inductive Event where
  | acquireSet
  | destroySet
  | createNode
  | buildList
  | destroyList
  | selectDriver (i : Nat)
  | installer (s : InstallStep) (ok : Bool)
  | openKey
deriving DecidableEq, Repr

/-- `ERROR_NO_MORE_ITEMS`, the code ending every lazy enumeration. -/
def ERROR_NO_MORE_ITEMS : Nat := 259

/-- `Result::is_ok` of a unit-valued `Except`. -/
def isOkB : Except IoError Unit → Bool
  | .ok _ => true
  | .error _ => false

/-! ## Driver-candidate enumeration and selection
(src/ffi.rs lines 404–432, src/iface.rs lines 57–94) -/

/-- Outcome of `get_driver_info_detail` together with the UTF-16 decode
of the embedded hardware-ID field (src/iface.rs lines 71–80): a failed
fetch is skipped by the loop, a failed decode propagates. -/
inductive DetailRes where
  | fetchErr
  | decodeErr (msg : String)
  | ok (hardwareId : String)
deriving DecidableEq, Repr

/-- One driver candidate as the OS presents it: its `DriverVersion`,
the outcome of fetching its detail record, and whether
`set_selected_driver` succeeds on it. -/
structure DrvCandidate where
  version : Nat
  detail : DetailRes
  selectOk : Bool
deriving DecidableEq, Repr

/-- Result of one `SetupDiEnumDriverInfoW` call at some member index. -/
inductive DrvEnum where
  | ok (d : DrvCandidate)
  | err (code : Nat)
deriving DecidableEq, Repr

/-- `ffi::enum_driver_info` (src/ffi.rs lines 404–432): `none` when the
OS reports `ERROR_NO_MORE_ITEMS` (modelled by the index running past
the environment's list or by an explicit `err ERROR_NO_MORE_ITEMS`),
`some (error _)` on any other enumeration error. -/
def enum_driver_info (drivers : List DrvEnum) (memberIndex : Nat) :
    Option (Except IoError DrvCandidate) :=
  match drivers.get? memberIndex with
  | none => none
  | some (.ok d) => some (.ok d)
  | some (.err c) =>
      if c = ERROR_NO_MORE_ITEMS then none else some (.error (.osError c))

/-- The driver-selection loop of `create_interface` (src/iface.rs lines
57–90): the `while let Some(..) = enum_driver_info(..)` loop, recursing
over the remaining enumeration results.  State: current best
`driver_version`, index of the currently selected driver, event trace.
An enumeration error is skipped (`if drvinfo_data.is_err() continue`);
a candidate is examined only when its version strictly exceeds the
current best; detail-fetch failures, hardware-ID mismatches and
`set_selected_driver` failures are skipped; a hardware-ID decode
failure propagates. -/
def driverLoop (componentId : String) :
    List DrvEnum → Nat → Nat → Option Nat → List Event →
    Except IoError (Nat × Option Nat) × List Event
  | [], _, best, sel, evs => (.ok (best, sel), evs)
  | e :: rest, idx, best, sel, evs =>
    match e with
    | .err c =>
        if c = ERROR_NO_MORE_ITEMS then (.ok (best, sel), evs)
        else driverLoop componentId rest (idx + 1) best sel evs
    | .ok d =>
        if d.version ≤ best then
          driverLoop componentId rest (idx + 1) best sel evs
        else
          match d.detail with
          | .fetchErr => driverLoop componentId rest (idx + 1) best sel evs
          | .decodeErr msg => (.error (.other msg), evs)
          | .ok hwid =>
              if !eqIgnoreAsciiCase hwid componentId then
                driverLoop componentId rest (idx + 1) best sel evs
              else if !d.selectOk then
                driverLoop componentId rest (idx + 1) best sel evs
              else
                driverLoop componentId rest (idx + 1) d.version (some idx)
                  (evs ++ [.selectDriver idx])

/-- A candidate the selection loop can actually adopt: enumeration
succeeded, detail fetch and decode succeeded, the hardware ID matches
the component identifier case-insensitively, and selecting it
succeeds. -/
def goodCandidate (componentId : String) : DrvEnum → Bool
  | .ok d =>
      match d.detail with
      | .ok hwid => eqIgnoreAsciiCase hwid componentId && d.selectOk
      | _ => false
  | .err _ => false

/-- The `DriverVersion` of an enumeration entry (0 for errors). -/
def candVersion : DrvEnum → Nat
  | .ok d => d.version
  | .err _ => 0

/-- The entry is not a candidate whose hardware-ID decode fails. -/
def noDecodeErr : DrvEnum → Bool
  | .ok d =>
      match d.detail with
      | .decodeErr _ => false
      | _ => true
  | .err _ => true

/-- The entry is not an explicit mid-list `ERROR_NO_MORE_ITEMS`. -/
def noNMI : DrvEnum → Bool
  | .ok _ => true
  | .err c => c != ERROR_NO_MORE_ITEMS

/-! ## Registry-change waits and the identifier-resolution loops
(src/ffi.rs lines 387–402, src/iface.rs lines 107–127) -/

/-- Outcome of one registry-change wait: event creation,
`RegNotifyChangeKeyValue` subscription and the 2000 ms
`WaitForSingleObject` (src/ffi.rs lines 387–402).  `failed e` covers an
event-creation or subscription failure as well as a wait outcome other
than `WAIT_OBJECT_0` / `WAIT_TIMEOUT`. -/
inductive WaitResult where
  | signaled
  | timeout
  | failed (e : IoError)
deriving DecidableEq, Repr

/-- `ffi::notify_change_key_value` (src/ffi.rs lines 387–402):
`WAIT_OBJECT_0` is `Ok`, `WAIT_TIMEOUT` becomes `Err(TimedOut)`, any
other failure its own error. -/
def notify_change_key_value : WaitResult → Except IoError Unit
  | .signaled => .ok ()
  | .timeout => .error (.timedOut "Registry timed out")
  | .failed e => .error e

/-- One `while key.get_value(..).is_err() { notify_change_key_value(..)?; }`
loop (src/iface.rs lines 118–124).  `valueAt s` is the registry read as
seen after `s` waits have completed, `waitAt s` the outcome of the
`s`-th wait.  Returns the wait counter at which the value was read, the
propagated error of a failed wait, or `none` when the fuel runs out
(the loop would still be running). -/
def waitLoop (valueAt : Nat → Except IoError Nat) (waitAt : Nat → WaitResult) :
    Nat → Nat → Option (Except IoError Nat)
  | 0, s =>
    match valueAt s with
    | .ok _ => some (.ok s)
    | .error _ => none
  | fuel + 1, s =>
    match valueAt s with
    | .ok _ => some (.ok s)
    | .error _ =>
      match notify_change_key_value (waitAt s) with
      | .ok _ => waitLoop valueAt waitAt fuel (s + 1)
      | .error e => some (.error e)

/-! ## `create_interface` (src/iface.rs lines 37–141) -/

/-- Environment fixing the outcome of every OS call `create_interface`
performs.  Registry reads are indexed by the number of completed
registry-change waits, so values may appear (or vanish) over time. -/
structure CreateEnv where
  createList : Except IoError Unit
  className : Except IoError String
  createNode : Except IoError Unit
  selectDevice : Except IoError Unit
  setHwid : Except IoError Unit
  buildList : Except IoError Unit
  drivers : List DrvEnum
  registerRes : Except IoError Unit
  coinstallersRes : Except IoError Unit
  interfacesRes : Except IoError Unit
  installRes : Except IoError Unit
  removeRes : Except IoError Unit
  openKeyRes : Except IoError Unit
  ifTypeAt : Nat → Except IoError Nat
  luidIndexAt : Nat → Except IoError Nat
  waitAt : Nat → WaitResult

/-- `env` with the rollback `DIF_REMOVE` outcome replaced by `r`. -/
def setRemoveRes (env : CreateEnv) (r : Except IoError Unit) : CreateEnv :=
  ⟨env.createList, env.className, env.createNode, env.selectDevice,
   env.setHwid, env.buildList, env.drivers, env.registerRes,
   env.coinstallersRes, env.interfacesRes, env.installRes, r,
   env.openKeyRes, env.ifTypeAt, env.luidIndexAt, env.waitAt⟩

/-- The installer/openKey events of a run that reached the value
waits: all install steps attempted, the best-effort ones with their own
(ignored) outcome, then the registry-key opening. -/
def installTrace (env : CreateEnv) : List Event :=
  [.installer .registerDevice true,
   .installer .registerCoinstallers (isOkB env.coinstallersRes),
   .installer .installInterfaces (isOkB env.interfacesRes),
   .installer .installDevice true, .openKey]

/-- The part of `create_interface` covered by the `uninstaller` scope
guard (src/iface.rs lines 96–130): `DIF_REGISTERDEVICE`, the two
ignored best-effort steps, `DIF_INSTALLDEVICE`, opening the driver
registry key, the two value-wait loops, and the two final reads.
Returns the `(*IfType, NetLuidIndex)` pair. -/
def installAndResolve (env : CreateEnv) (fuel : Nat) :
    Option (Except IoError (Nat × Nat) × List Event) :=
  match env.registerRes with
  | .error e => some (.error e, [.installer .registerDevice false])
  | .ok _ =>
    match env.installRes with
    | .error e =>
        some (.error e,
          [.installer .registerDevice true,
           .installer .registerCoinstallers (isOkB env.coinstallersRes),
           .installer .installInterfaces (isOkB env.interfacesRes),
           .installer .installDevice false])
    | .ok _ =>
      match env.openKeyRes with
      | .error e =>
          some (.error e,
            [.installer .registerDevice true,
             .installer .registerCoinstallers (isOkB env.coinstallersRes),
             .installer .installInterfaces (isOkB env.interfacesRes),
             .installer .installDevice true])
      | .ok _ =>
        match waitLoop env.ifTypeAt env.waitAt fuel 0 with
        | none => none
        | some (.error e) => some (.error e, installTrace env)
        | some (.ok s1) =>
          match waitLoop env.luidIndexAt env.waitAt fuel s1 with
          | none => none
          | some (.error e) => some (.error e, installTrace env)
          | some (.ok s2) =>
            match env.ifTypeAt s2 with
            | .error e => some (.error e, installTrace env)
            | .ok t =>
              match env.luidIndexAt s2 with
              | .error e => some (.error e, installTrace env)
              | .ok i => some (.ok (t, i), installTrace env)

/-- `create_interface` after the device-info set has been acquired
(src/iface.rs lines 44–140): class-name lookup, node creation,
selection, hardware-ID property, driver list build, driver selection,
then the guarded install/resolve region.  Each exit path carries the
events of the scope guards that run on it, in drop order: the
`uninstaller` guard's `DIF_REMOVE` (armed from before
`DIF_REGISTERDEVICE`, defused only after the two final value reads,
its own result discarded), then `destroyList` (armed once the driver
list is built), in that order. -/
def createBody (cid : String) (env : CreateEnv) (fuel : Nat) :
    Option (Except IoError Nat × List Event) :=
  match env.className with
  | .error e => some (.error e, [])
  | .ok _ =>
  match env.createNode with
  | .error e => some (.error e, [])
  | .ok _ =>
  match env.selectDevice with
  | .error e => some (.error e, [.createNode])
  | .ok _ =>
  match env.setHwid with
  | .error e => some (.error e, [.createNode])
  | .ok _ =>
  match env.buildList with
  | .error e => some (.error e, [.createNode])
  | .ok _ =>
  match driverLoop cid env.drivers 0 0 none [] with
  | (.error e, evs) =>
      some (.error e, .createNode :: .buildList :: (evs ++ [.destroyList]))
  | (.ok (best, _sel), evs) =>
    if best = 0 then
      some (.error (.notFound "No driver found"),
        .createNode :: .buildList :: (evs ++ [.destroyList]))
    else
      match installAndResolve env fuel with
      | none => none
      | some (.ok ti, tr2) =>
          some (.ok (packLuid ti.1 ti.2),
            .createNode :: .buildList :: ((evs ++ tr2) ++ [.destroyList]))
      | some (.error e, tr2) =>
          some (.error e,
            .createNode :: .buildList ::
              ((evs ++ (tr2 ++ [.installer .remove (isOkB env.removeRes)]))
                ++ [.destroyList]))

/-- `create_interface` (src/iface.rs lines 37–141): acquire the fresh
device-info set (its scope guard appends `destroySet` on every exit)
and run the body.  `none` models a run still stuck in a value-wait
loop when the fuel is exhausted. -/
def createInterface (cid : String) (env : CreateEnv) (fuel : Nat) :
    Option (Except IoError Nat × List Event) :=
  match env.createList with
  | .error e => some (.error e, [])
  | .ok _ =>
    match createBody cid env fuel with
    | none => none
    | some (res, tr) => some (res, .acquireSet :: (tr ++ [.destroySet]))

/-- All-steps-succeed environment used by concrete runs: one matching
driver of version 7, registry values present from the start. -/
def happyEnv (cid : String) : CreateEnv :=
  ⟨.ok (), .ok "Net", .ok (), .ok (), .ok (), .ok (),
   [.ok ⟨7, .ok cid, true⟩], .ok (), .ok (), .ok (), .ok (), .ok (), .ok (),
   fun _ => .ok 6, fun _ => .ok 42, fun _ => .signaled⟩

/-! ## `check_interface`, `delete_interface` (src/iface.rs lines 144–276)
and `Device::open` / `Device::create` (src/lib.rs lines 83–133) -/

/-- One present device of the network-adapter class, as the scans of
`check_interface` / `delete_interface` see it: outcome of reading its
hardware-ID property (`none` = any failure), of opening its driver
registry key, and of the two registry value reads.  Each failure makes
the loop skip the device. -/
structure DeviceData where
  hwid : Option String
  keyOk : Bool
  ifType : Option Nat
  luidIndex : Option Nat
deriving DecidableEq, Repr

/-- Result of one `SetupDiEnumDeviceInfo` call at some member index. -/
inductive DevEnum where
  | ok (d : DeviceData)
  | err (code : Nat)
deriving DecidableEq, Repr

/-- `ffi::enum_device_info` (src/ffi.rs lines 434–448): same
`ERROR_NO_MORE_ITEMS` contract as driver enumeration. -/
def enum_device_info (devs : List DevEnum) (memberIndex : Nat) :
    Option (Except IoError DeviceData) :=
  match devs.get? memberIndex with
  | none => none
  | some (.ok d) => some (.ok d)
  | some (.err c) =>
      if c = ERROR_NO_MORE_ITEMS then none else some (.error (.osError c))

/-- The entry is not an explicit mid-list `ERROR_NO_MORE_ITEMS`. -/
def devNoNMI : DevEnum → Bool
  | .ok _ => true
  | .err c => c != ERROR_NO_MORE_ITEMS

/-- A scanned device matches (src/iface.rs lines 156–204): enumeration,
hardware-ID read, key opening and both value reads succeeded, the
hardware ID equals the component identifier case-insensitively, and
the packed identifier equals the requested one in full. -/
def matchesDev (cid : String) (luid : Nat) : DevEnum → Bool
  | .ok d =>
      match d.hwid, d.keyOk, d.ifType, d.luidIndex with
      | some hw, true, some t, some i =>
          eqIgnoreAsciiCase hw cid && (packLuid t i == luid)
      | _, _, _, _ => false
  | .err _ => false

/-- The scan loop of `check_interface` (src/iface.rs lines 151–207):
first matching device returns `Ok(())`; exhaustion returns the
`NotFound` of line 207; enumeration errors and devices failing any
read are skipped. -/
def checkScan (cid : String) (luid : Nat) : List DevEnum → Except IoError Unit
  | [] => .error (.notFound "Device not found")
  | e :: rest =>
    match e with
    | .err c =>
        if c = ERROR_NO_MORE_ITEMS then .error (.notFound "Device not found")
        else checkScan cid luid rest
    | .ok d =>
        if matchesDev cid luid (.ok d) then .ok ()
        else checkScan cid luid rest

/-- The scan loop of `delete_interface` (src/iface.rs lines 218–275):
identical matching, but the first match invokes the class installer's
`DIF_REMOVE` and returns its result. -/
def deleteScan (cid : String) (luid : Nat) (removeRes : Except IoError Unit) :
    List DevEnum → Except IoError Unit × List Event
  | [] => (.error (.notFound "Device not found"), [])
  | e :: rest =>
    match e with
    | .err c =>
        if c = ERROR_NO_MORE_ITEMS then (.error (.notFound "Device not found"), [])
        else deleteScan cid luid removeRes rest
    | .ok d =>
        if matchesDev cid luid (.ok d) then
          (removeRes, [.installer .remove (isOkB removeRes)])
        else deleteScan cid luid removeRes rest

/-- Environment of one scan: outcome of `get_class_devs`, the present
devices, and (for deletion) the outcome of `DIF_REMOVE`. -/
structure ScanEnv where
  getDevs : Except IoError Unit
  devs : List DevEnum
  removeRes : Except IoError Unit

/-- `check_interface` (src/iface.rs lines 144–208): acquire the
present-devices set (guard appends `destroySet` on every exit), scan. -/
def checkInterface (cid : String) (luid : Nat) (env : ScanEnv) :
    Except IoError Unit × List Event :=
  match env.getDevs with
  | .error e => (.error e, [])
  | .ok _ => (checkScan cid luid env.devs, [.acquireSet, .destroySet])

/-- `delete_interface` (src/iface.rs lines 211–276). -/
def deleteInterface (cid : String) (luid : Nat) (env : ScanEnv) :
    Except IoError Unit × List Event :=
  match env.getDevs with
  | .error e => (.error e, [])
  | .ok _ =>
    match deleteScan cid luid env.removeRes env.devs with
    | (res, evs) => (res, .acquireSet :: (evs ++ [.destroySet]))

/-- `Device::open` (src/lib.rs lines 122–133): translate the alias to
an identifier (one call, no retry), verify with `check_interface`,
then open the handle once.  Returns the `(luid, handle)` pair. -/
def deviceOpen (cid : String) (aliasRes : Except IoError Nat)
    (env : ScanEnv) (openRes : Except IoError Nat) :
    Except IoError (Nat × Nat) :=
  match aliasRes with
  | .error e => .error e
  | .ok luid =>
    match (checkInterface cid luid env).1 with
    | .error e => .error e
    | .ok _ =>
      match openRes with
      | .error e => .error e
      | .ok h => .ok (luid, h)

/-- The handle-acquisition retry loop of `Device::create`
(src/lib.rs lines 86–102): `times n` is the elapsed wall-clock
milliseconds at the deadline check of iteration `n`, `opens n` the
outcome of `open_interface` there (`none` = any error, retried after a
scheduler yield).  The deadline (strictly more than 2000 ms elapsed)
is checked before each attempt; `none` models fuel exhaustion. -/
def openRetryLoop (times : Nat → Nat) (opens : Nat → Option Nat) :
    Nat → Nat → Option (Except IoError Nat)
  | 0, _ => none
  | fuel + 1, n =>
    if times n > 2000 then some (.error (.timedOut "Interface timed out"))
    else
      match opens n with
      | none => openRetryLoop times opens fuel (n + 1)
      | some h => some (.ok h)

/-- `Device::create` (src/lib.rs lines 83–109): `create_interface`
followed by the bounded handle-open retry loop. -/
def deviceCreate (cid : String) (env : CreateEnv) (cfuel : Nat)
    (times : Nat → Nat) (opens : Nat → Option Nat) (ofuel : Nat) :
    Option (Except IoError (Nat × Nat)) :=
  match createInterface cid env cfuel with
  | none => none
  | some (.error e, _) => some (.error e)
  | some (.ok luid, _) =>
    match openRetryLoop times opens ofuel 0 with
    | none => none
    | some (.error e) => some (.error e)
    | some (.ok h) => some (.ok (luid, h))

end TapWindows

/-! # Theorems -/

namespace TapWindows

/-- Closed form of `packLuid`. -/
theorem packLuid_eq (t i : Nat) :
    packLuid t i = t % 2 ^ 16 * 2 ^ 48 + i % 2 ^ 24 * 2 ^ 24 := by
  unfold packLuid setNetLuidIndex setIfType setBitsField
  norm_num
  omega

/-- C10 helper: the reserved bits of any packed identifier are zero. -/
theorem getReserved_packLuid (t i : Nat) : getReserved (packLuid t i) = 0 := by
  rw [packLuid_eq]
  unfold getReserved getBitsField
  norm_num
  omega

/-- C10: for every pair of 32-bit registry values, the constructed
identifier is `((if_type mod 2^16) << 48) ||| ((luid_index mod 2^24) << 24)`;
the reserved low 24 bits are zero and out-of-range inputs are silently
truncated to the field width rather than rejected. -/
theorem c10_packLuid_truncates (t i : Nat) :
    packLuid t i = t % 2 ^ 16 * 2 ^ 48 + i % 2 ^ 24 * 2 ^ 24 ∧
    getReserved (packLuid t i) = 0 ∧
    packLuid (t % 2 ^ 16) (i % 2 ^ 24) = packLuid t i := by
  refine ⟨packLuid_eq t i, getReserved_packLuid t i, ?_⟩
  rw [packLuid_eq, packLuid_eq]
  norm_num

/-- C8: packing a pair that fits the field widths and re-extracting both
fields yields the original pair exactly. -/
theorem c8_packLuid_roundtrip (t i : Nat) (ht : t < 2 ^ 16) (hi : i < 2 ^ 24) :
    getIfType (packLuid t i) = t ∧ getNetLuidIndex (packLuid t i) = i := by
  rw [packLuid_eq t i]
  unfold getIfType getNetLuidIndex getBitsField
  norm_num at ht hi ⊢
  omega

/-- C8 witness at `IfType = 6`, `NetLuidIndex = 42`. -/
theorem c8_packLuid_roundtrip_witness :
    getIfType (packLuid 6 42) = 6 ∧ getNetLuidIndex (packLuid 6 42) = 42 :=
  c8_packLuid_roundtrip 6 42 (by norm_num) (by norm_num)

/-- If no remaining good candidate beats the current best version, the
loop changes nothing. -/
theorem driverLoop_no_update (cid : String) (l : List DrvEnum)
    (idx best : Nat) (sel : Option Nat) (evs : List Event)
    (hdec : ∀ e ∈ l, noDecodeErr e = true)
    (hle : ∀ e ∈ l, goodCandidate cid e = true → candVersion e ≤ best) :
    driverLoop cid l idx best sel evs = (.ok (best, sel), evs) := by
  induction l generalizing idx with
  | nil => rfl
  | cons e rest ih =>
    have hdec' : ∀ x ∈ rest, noDecodeErr x = true := fun x hx => hdec x (.tail _ hx)
    have hle' : ∀ x ∈ rest, goodCandidate cid x = true → candVersion x ≤ best :=
      fun x hx => hle x (.tail _ hx)
    cases e with
    | err c =>
      by_cases hc : c = ERROR_NO_MORE_ITEMS
      · simp [driverLoop, hc]
      · simp only [driverLoop, if_neg hc]
        exact ih _ hdec' hle'
    | ok d =>
      by_cases hv : d.version ≤ best
      · simp only [driverLoop, if_pos hv]
        exact ih _ hdec' hle'
      · simp only [driverLoop, if_neg hv]
        cases hd : d.detail with
        | fetchErr => exact ih _ hdec' hle'
        | decodeErr msg =>
          exact absurd (hdec _ (.head _)) (by simp [noDecodeErr, hd])
        | ok hwid =>
          by_cases hm : eqIgnoreAsciiCase hwid cid = true
          · by_cases hs : d.selectOk = true
            · exact absurd (hle _ (.head _) (by simp [goodCandidate, hd, hm, hs]))
                (by simpa [candVersion] using hv)
            · simp only [Bool.not_eq_true] at hs
              simp only [hm, hs, Bool.not_true, Bool.not_false, if_neg, if_pos,
                Bool.false_eq_true, if_false, if_true]
              exact ih _ hdec' hle'
          · simp only [Bool.not_eq_true] at hm
            simp only [hm, Bool.not_false, if_pos]
            exact ih _ hdec' hle'

/-- C5: among all candidates whose hardware ID matches the component
identifier case-insensitively (and whose detail fetch and selection
succeed), the one with the strictly highest version ends up selected,
whatever surrounds it: skipped enumeration errors, skipped detail-fetch
failures, mismatching or lower-version candidates.  The selected index
is that of the strictly-highest-version matching candidate. -/
theorem c5_driverLoop_selects_max (cid : String) (l₁ l₂ : List DrvEnum)
    (c : DrvEnum) (v idx best : Nat) (sel : Option Nat) (evs : List Event)
    (hgood : goodCandidate cid c = true) (hv : candVersion c = v)
    (hbest : best < v)
    (h₁dec : ∀ e ∈ l₁, noDecodeErr e = true)
    (h₁nmi : ∀ e ∈ l₁, noNMI e = true)
    (h₁lt : ∀ e ∈ l₁, goodCandidate cid e = true → candVersion e < v)
    (h₂dec : ∀ e ∈ l₂, noDecodeErr e = true)
    (h₂lt : ∀ e ∈ l₂, goodCandidate cid e = true → candVersion e < v) :
    ∃ evs2, driverLoop cid (l₁ ++ c :: l₂) idx best sel evs
      = (.ok (v, some (idx + l₁.length)), evs2) := by
  induction l₁ generalizing idx best sel evs with
  | nil =>
    obtain ⟨d, hc⟩ : ∃ d, c = .ok d := by
      cases c with
      | ok d => exact ⟨d, rfl⟩
      | err code => simp [goodCandidate] at hgood
    subst hc
    obtain ⟨hwid, hd, hm, hs⟩ :
        ∃ hwid, d.detail = .ok hwid ∧ eqIgnoreAsciiCase hwid cid = true ∧
          d.selectOk = true := by
      cases hdet : d.detail with
      | ok hwid =>
        simp [goodCandidate, hdet, Bool.and_eq_true] at hgood
        exact ⟨hwid, rfl, hgood.1, hgood.2⟩
      | fetchErr => simp [goodCandidate, hdet] at hgood
      | decodeErr msg => simp [goodCandidate, hdet] at hgood
    have hvv : d.version = v := by simpa [candVersion] using hv
    have hnotle : ¬ d.version ≤ best := by omega
    refine ⟨evs ++ [.selectDriver idx], ?_⟩
    simp only [List.nil_append, driverLoop, if_neg hnotle, hd, hm, hs,
      Bool.not_true, Bool.false_eq_true, if_false]
    rw [hvv]
    have := driverLoop_no_update cid l₂ (idx + 1) v (some idx)
      (evs ++ [.selectDriver idx]) h₂dec
      (fun x hx hg => Nat.le_of_lt (h₂lt x hx hg))
    simpa [Nat.add_zero] using this
  | cons e l₁' ih =>
    have h₁dec' : ∀ x ∈ l₁', noDecodeErr x = true := fun x hx => h₁dec x (.tail _ hx)
    have h₁nmi' : ∀ x ∈ l₁', noNMI x = true := fun x hx => h₁nmi x (.tail _ hx)
    have h₁lt' : ∀ x ∈ l₁', goodCandidate cid x = true → candVersion x < v :=
      fun x hx => h₁lt x (.tail _ hx)
    have harith : ∀ n : Nat, idx + 1 + n = idx + (n + 1) := by omega
    cases e with
    | err c0 =>
      have hnmi0 : c0 ≠ ERROR_NO_MORE_ITEMS := by
        have := h₁nmi _ (.head _)
        simpa [noNMI] using this
      simp only [List.cons_append, driverLoop, if_neg hnmi0]
      obtain ⟨evs2, h⟩ := ih (idx + 1) best sel evs hbest h₁dec' h₁nmi' h₁lt'
      exact ⟨evs2, by rw [harith l₁'.length] at h; simpa using h⟩
    | ok d =>
      simp only [List.cons_append, driverLoop]
      by_cases hle : d.version ≤ best
      · simp only [if_pos hle]
        obtain ⟨evs2, h⟩ := ih (idx + 1) best sel evs hbest h₁dec' h₁nmi' h₁lt'
        exact ⟨evs2, by rw [harith l₁'.length] at h; simpa using h⟩
      · simp only [if_neg hle]
        cases hdet : d.detail with
        | fetchErr =>
          obtain ⟨evs2, h⟩ := ih (idx + 1) best sel evs hbest h₁dec' h₁nmi' h₁lt'
          exact ⟨evs2, by rw [harith l₁'.length] at h; simpa using h⟩
        | decodeErr msg =>
          exact absurd (h₁dec _ (.head _)) (by simp [noDecodeErr, hdet])
        | ok hwid =>
          by_cases hm : eqIgnoreAsciiCase hwid cid = true
          · by_cases hs : d.selectOk = true
            · have hgood0 : goodCandidate cid (.ok d) = true := by
                simp [goodCandidate, hdet, hm, hs]
              have hdv : d.version < v := by
                simpa [candVersion] using h₁lt _ (.head _) hgood0
              simp only [hm, hs, Bool.not_true, Bool.false_eq_true, if_false]
              obtain ⟨evs2, h⟩ := ih (idx + 1) d.version (some idx)
                (evs ++ [.selectDriver idx]) hdv h₁dec' h₁nmi' h₁lt'
              exact ⟨evs2, by rw [harith l₁'.length] at h; simpa using h⟩
            · simp only [Bool.not_eq_true] at hs
              simp only [hm, hs, Bool.not_true, Bool.not_false, Bool.false_eq_true,
                if_false, if_true]
              obtain ⟨evs2, h⟩ := ih (idx + 1) best sel evs hbest h₁dec' h₁nmi' h₁lt'
              exact ⟨evs2, by rw [harith l₁'.length] at h; simpa using h⟩
          · simp only [Bool.not_eq_true] at hm
            simp only [hm, Bool.not_false, if_true]
            obtain ⟨evs2, h⟩ := ih (idx + 1) best sel evs hbest h₁dec' h₁nmi' h₁lt'
            exact ⟨evs2, by rw [harith l₁'.length] at h; simpa using h⟩

/-- The selection loop only ever appends `selectDriver` events. -/
theorem driverLoop_trace (cid : String) (l : List DrvEnum) (idx best : Nat)
    (sel : Option Nat) (evs : List Event) :
    ∃ ext, (driverLoop cid l idx best sel evs).2 = evs ++ ext ∧
      ∀ x ∈ ext, ∃ i, x = Event.selectDriver i := by
  induction l generalizing idx best sel evs with
  | nil => exact ⟨[], by simp [driverLoop], by simp⟩
  | cons e rest ih =>
    cases e with
    | err c =>
      by_cases hc : c = ERROR_NO_MORE_ITEMS
      · exact ⟨[], by simp [driverLoop, hc], by simp⟩
      · simp only [driverLoop, if_neg hc]
        exact ih _ _ _ _
    | ok d =>
      by_cases hv : d.version ≤ best
      · simp only [driverLoop, if_pos hv]
        exact ih _ _ _ _
      · simp only [driverLoop, if_neg hv]
        cases hd : d.detail with
        | fetchErr => exact ih _ _ _ _
        | decodeErr msg => exact ⟨[], by simp, by simp⟩
        | ok hwid =>
          by_cases hm : eqIgnoreAsciiCase hwid cid = true
          · by_cases hs : d.selectOk = true
            · simp only [hm, hs, Bool.not_true, Bool.false_eq_true, if_false]
              obtain ⟨ext, hext, hall⟩ := ih (idx + 1) d.version (some idx)
                (evs ++ [.selectDriver idx])
              refine ⟨.selectDriver idx :: ext, by simpa [List.append_assoc] using hext, ?_⟩
              intro x hx
              rcases List.mem_cons.mp hx with h | h
              · exact ⟨idx, h⟩
              · exact hall x h
            · simp only [Bool.not_eq_true] at hs
              simp only [hm, hs, Bool.not_true, Bool.not_false, Bool.false_eq_true,
                if_false, if_true]
              exact ih _ _ _ _
          · simp only [Bool.not_eq_true] at hm
            simp only [hm, Bool.not_false, if_true]
            exact ih _ _ _ _

/-- Every event of the guarded install/resolve region is a
non-`remove` installer invocation or the registry-key opening. -/
theorem installAndResolve_trace (env : CreateEnv) (fuel : Nat)
    (r : Except IoError (Nat × Nat)) (tr : List Event)
    (h : installAndResolve env fuel = some (r, tr)) :
    ∀ x ∈ tr, (∃ s b, x = Event.installer s b ∧ s ≠ InstallStep.remove) ∨
      x = Event.openKey := by
  have hmem : ∀ x ∈ installTrace env,
      (∃ s b, x = Event.installer s b ∧ s ≠ InstallStep.remove) ∨
        x = Event.openKey := by
    intro x hx
    unfold installTrace at hx
    fin_cases hx
    · exact Or.inl ⟨_, _, rfl, by decide⟩
    · exact Or.inl ⟨_, _, rfl, by decide⟩
    · exact Or.inl ⟨_, _, rfl, by decide⟩
    · exact Or.inl ⟨_, _, rfl, by decide⟩
    · exact Or.inr rfl
  unfold installAndResolve at h
  split at h
  · -- registerRes error
    simp only [Option.some.injEq, Prod.mk.injEq] at h
    obtain ⟨-, h2⟩ := h
    subst h2
    intro x hx
    fin_cases hx
    exact Or.inl ⟨_, _, rfl, by decide⟩
  · split at h
    · -- installRes error
      simp only [Option.some.injEq, Prod.mk.injEq] at h
      obtain ⟨-, h2⟩ := h
      subst h2
      intro x hx
      fin_cases hx <;> exact Or.inl ⟨_, _, rfl, by decide⟩
    · split at h
      · -- openKeyRes error
        simp only [Option.some.injEq, Prod.mk.injEq] at h
        obtain ⟨-, h2⟩ := h
        subst h2
        intro x hx
        fin_cases hx <;> exact Or.inl ⟨_, _, rfl, by decide⟩
      · split at h
        · -- first wait loop out of fuel
          exact absurd h (by simp)
        · -- first wait loop failed
          simp only [Option.some.injEq, Prod.mk.injEq] at h
          obtain ⟨-, h2⟩ := h
          subst h2
          exact hmem
        · split at h
          · exact absurd h (by simp)
          · simp only [Option.some.injEq, Prod.mk.injEq] at h
            obtain ⟨-, h2⟩ := h
            subst h2
            exact hmem
          · split at h
            · simp only [Option.some.injEq, Prod.mk.injEq] at h
              obtain ⟨-, h2⟩ := h
              subst h2
              exact hmem
            · split at h
              · simp only [Option.some.injEq, Prod.mk.injEq] at h
                obtain ⟨-, h2⟩ := h
                subst h2
                exact hmem
              · simp only [Option.some.injEq, Prod.mk.injEq] at h
                obtain ⟨-, h2⟩ := h
                subst h2
                exact hmem

/-- C2: in every terminating run of `create_interface`, a successful
run never invokes the `DIF_REMOVE` installer step; a failing run that
had successfully invoked `DIF_REGISTERDEVICE` invokes `DIF_REMOVE`
(before the guards destroy the list and the set) and propagates the
original error; and the result never depends on the outcome of the
rollback `DIF_REMOVE` itself. -/
theorem c2_create_rollback (cid : String) (env : CreateEnv) (fuel : Nat) :
    (∀ res tr, createInterface cid env fuel = some (res, tr) →
       (∀ v, res = .ok v → ∀ b, Event.installer .remove b ∉ tr) ∧
       (∀ e, res = .error e → Event.installer .registerDevice true ∈ tr →
          ∃ b, Event.installer .remove b ∈ tr)) ∧
    (∀ r, Option.map Prod.fst (createInterface cid (setRemoveRes env r) fuel)
        = Option.map Prod.fst (createInterface cid env fuel)) := by
  constructor
  · intro res tr h
    unfold createInterface at h
    split at h
    · simp only [Option.some.injEq, Prod.mk.injEq] at h
      obtain ⟨h1, h2⟩ := h
      subst h1
      subst h2
      constructor
      · intro v hv
        exact absurd hv (by simp)
      · intro e2 he2 hmem
        simp at hmem
    · split at h
      · exact absurd h (by simp)
      · rename_i res0 tr0 hcb
        simp only [Option.some.injEq, Prod.mk.injEq] at h
        obtain ⟨h1, h2⟩ := h
        subst h1
        subst h2
        unfold createBody at hcb
        split at hcb
        · simp only [Option.some.injEq, Prod.mk.injEq] at hcb
          obtain ⟨hr0, ht0⟩ := hcb
          subst hr0
          subst ht0
          exact ⟨fun v hv => absurd hv (by simp), fun e2 he2 hmem => by simp at hmem⟩
        · split at hcb
          · simp only [Option.some.injEq, Prod.mk.injEq] at hcb
            obtain ⟨hr0, ht0⟩ := hcb
            subst hr0
            subst ht0
            exact ⟨fun v hv => absurd hv (by simp), fun e2 he2 hmem => by simp at hmem⟩
          · split at hcb
            · simp only [Option.some.injEq, Prod.mk.injEq] at hcb
              obtain ⟨hr0, ht0⟩ := hcb
              subst hr0
              subst ht0
              exact ⟨fun v hv => absurd hv (by simp), fun e2 he2 hmem => by simp at hmem⟩
            · split at hcb
              · simp only [Option.some.injEq, Prod.mk.injEq] at hcb
                obtain ⟨hr0, ht0⟩ := hcb
                subst hr0
                subst ht0
                exact ⟨fun v hv => absurd hv (by simp), fun e2 he2 hmem => by simp at hmem⟩
              · split at hcb
                · simp only [Option.some.injEq, Prod.mk.injEq] at hcb
                  obtain ⟨hr0, ht0⟩ := hcb
                  subst hr0
                  subst ht0
                  exact ⟨fun v hv => absurd hv (by simp), fun e2 he2 hmem => by simp at hmem⟩
                · split at hcb
                  · -- driver-selection loop propagated a decode error
                    rename_i e0 evs hdl
                    obtain ⟨ext, hexteq, hall⟩ := driverLoop_trace cid env.drivers 0 0 none []
                    rw [hdl] at hexteq
                    simp only [List.nil_append] at hexteq
                    subst hexteq
                    simp only [Option.some.injEq, Prod.mk.injEq] at hcb
                    obtain ⟨hr0, ht0⟩ := hcb
                    subst hr0
                    subst ht0
                    refine ⟨fun v hv => absurd hv (by simp), fun e2 he2 hmem => ?_⟩
                    exfalso
                    simp only [List.mem_cons, List.mem_append, List.mem_singleton,
                      List.not_mem_nil, or_false, false_or, reduceCtorEq] at hmem
                    obtain ⟨i, hi⟩ := hall _ hmem
                    exact absurd hi (by simp)
                  · rename_i best sel evs hdl
                    obtain ⟨ext, hexteq, hall⟩ := driverLoop_trace cid env.drivers 0 0 none []
                    rw [hdl] at hexteq
                    simp only [List.nil_append] at hexteq
                    subst hexteq
                    split at hcb
                    · -- no driver found
                      simp only [Option.some.injEq, Prod.mk.injEq] at hcb
                      obtain ⟨hr0, ht0⟩ := hcb
                      subst hr0
                      subst ht0
                      refine ⟨fun v hv => absurd hv (by simp), fun e2 he2 hmem => ?_⟩
                      exfalso
                      simp only [List.mem_cons, List.mem_append, List.mem_singleton,
                        List.not_mem_nil, or_false, false_or, reduceCtorEq] at hmem
                      obtain ⟨i, hi⟩ := hall _ hmem
                      exact absurd hi (by simp)
                    · split at hcb
                      · exact absurd hcb (by simp)
                      · -- install/resolve succeeded
                        rename_i ti tr2 hIR
                        have htr2 := installAndResolve_trace env fuel _ _ hIR
                        simp only [Option.some.injEq, Prod.mk.injEq] at hcb
                        obtain ⟨hr0, ht0⟩ := hcb
                        subst hr0
                        subst ht0
                        refine ⟨fun v hv b hmem => ?_, fun e2 he2 hmem => absurd he2 (by simp)⟩
                        simp only [List.mem_cons, List.mem_append, List.mem_singleton,
                          List.not_mem_nil, or_false, false_or, reduceCtorEq] at hmem
                        rcases hmem with h | h
                        · obtain ⟨i, hi⟩ := hall _ h
                          exact absurd hi (by simp)
                        · rcases htr2 _ h with ⟨s2, b2, heq2, hne2⟩ | heq2
                          · injection heq2 with hs hb
                            exact hne2 hs.symm
                          · exact absurd heq2 (by simp)
                      · -- install/resolve failed: DIF_REMOVE fired
                        rename_i e0 tr2 hIR
                        simp only [Option.some.injEq, Prod.mk.injEq] at hcb
                        obtain ⟨hr0, ht0⟩ := hcb
                        subst hr0
                        subst ht0
                        refine ⟨fun v hv => absurd hv (by simp), fun e2 he2 hmem => ?_⟩
                        exact ⟨isOkB env.removeRes, by simp⟩
  · intro r
    have h1 : (setRemoveRes env r).createList = env.createList := rfl
    have h2 : (setRemoveRes env r).className = env.className := rfl
    have h3 : (setRemoveRes env r).createNode = env.createNode := rfl
    have h4 : (setRemoveRes env r).selectDevice = env.selectDevice := rfl
    have h5 : (setRemoveRes env r).setHwid = env.setHwid := rfl
    have h6 : (setRemoveRes env r).buildList = env.buildList := rfl
    have h7 : (setRemoveRes env r).drivers = env.drivers := rfl
    have hIR : installAndResolve (setRemoveRes env r) fuel = installAndResolve env fuel := rfl
    unfold createInterface createBody
    rw [h1, h2, h3, h4, h5, h6, h7, hIR]
    cases hcl : env.createList with
    | error e => simp
    | ok u =>
      cases hcn : env.className with
      | error e => simp
      | ok cn =>
        cases hc2 : env.createNode with
        | error e => simp
        | ok u2 =>
          cases hc3 : env.selectDevice with
          | error e => simp
          | ok u3 =>
            cases hc4 : env.setHwid with
            | error e => simp
            | ok u4 =>
              cases hc5 : env.buildList with
              | error e => simp
              | ok u5 =>
                rcases hdl : driverLoop cid env.drivers 0 0 none [] with ⟨rdl, evs⟩
                cases rdl with
                | error e => simp [hdl]
                | ok p =>
                  rcases p with ⟨best, sel⟩
                  by_cases hb : best = 0
                  · simp [hdl, hb]
                  · rcases hIR2 : installAndResolve env fuel with _ | ⟨rr, tr2⟩
                    · simp [hdl, hb, hIR2]
                    · cases rr with
                      | ok ti => simp [hdl, hb, hIR2]
                      | error e => simp [hdl, hb, hIR2]

/-- C2 witness: `DIF_INSTALLDEVICE` fails with OS error 31 and the
rollback `DIF_REMOVE` itself fails with OS error 2: the run still
invokes `DIF_REMOVE` and reports the original error 31. -/
theorem c2_create_rollback_witness :
    ∃ b, Event.installer .remove b ∈
      ([.acquireSet, .createNode, .buildList, .selectDriver 0,
        .installer .registerDevice true, .installer .registerCoinstallers true,
        .installer .installInterfaces true, .installer .installDevice false,
        .installer .remove false, .destroyList, .destroySet] : List Event) := by
  have h := (c2_create_rollback "tap0901"
    ⟨.ok (), .ok "Net", .ok (), .ok (), .ok (), .ok (),
     [.ok ⟨7, .ok "tap0901", true⟩], .ok (), .ok (), .ok (),
     .error (.osError 31), .error (.osError 2), .ok (),
     fun _ => .ok 6, fun _ => .ok 42, fun _ => .signaled⟩ 5).1
    (.error (.osError 31))
    [.acquireSet, .createNode, .buildList, .selectDriver 0,
     .installer .registerDevice true, .installer .registerCoinstallers true,
     .installer .installInterfaces true, .installer .installDevice false,
     .installer .remove false, .destroyList, .destroySet]
    rfl
  exact h.2 (.osError 31) rfl (by decide)

/-- C1 counterexample: with `*IfType` still absent and the first
registry-change wait timing out, `create_interface` does not re-arm:
it propagates `Err(TimedOut)` (and rolls back), because the `?` on
`notify_change_key_value` propagates the timeout like any error. -/
theorem c1_timeout_not_rearmed_counterexample :
    createInterface "tap0901"
      ⟨.ok (), .ok "Net", .ok (), .ok (), .ok (), .ok (),
       [.ok ⟨7, .ok "tap0901", true⟩], .ok (), .ok (), .ok (), .ok (), .ok (), .ok (),
       fun _ => .error (.notFound "absent"), fun _ => .ok 42, fun _ => .timeout⟩ 5
    = some (.error (.timedOut "Registry timed out"),
      [.acquireSet, .createNode, .buildList, .selectDriver 0,
       .installer .registerDevice true, .installer .registerCoinstallers true,
       .installer .installInterfaces true, .installer .installDevice true,
       .openKey, .installer .remove true, .destroyList, .destroySet]) := by
  rfl

/-- C1 (amended): in the identifier-resolution loop, the wait re-arms
and retries the read only when the wait completes because the key
changed (`WAIT_OBJECT_0`); a wait that times out propagates
`Err(TimedOut)` out of `create_interface` as a fatal error, exactly
like any other wait failure. -/
theorem c1_wait_timeout_fatal (cid : String) (env : CreateEnv)
    (fuel : Nat) (e0 : IoError) (v : Nat) (sel : Option Nat) (evs : List Event)
    (hcl : env.createList = .ok ()) (hcn : ∃ cn, env.className = .ok cn)
    (hnode : env.createNode = .ok ()) (hsel : env.selectDevice = .ok ())
    (hhw : env.setHwid = .ok ()) (hbl : env.buildList = .ok ())
    (hdl : driverLoop cid env.drivers 0 0 none [] = (.ok (v, sel), evs))
    (hv : v ≠ 0) (hreg : env.registerRes = .ok ())
    (hinst : env.installRes = .ok ()) (hkey : env.openKeyRes = .ok ())
    (hval : env.ifTypeAt 0 = .error e0) :
    (env.waitAt 0 = .signaled →
       waitLoop env.ifTypeAt env.waitAt (fuel + 1) 0
         = waitLoop env.ifTypeAt env.waitAt fuel 1) ∧
    (env.waitAt 0 = .timeout →
       ∃ tr, createInterface cid env (fuel + 1)
         = some (.error (.timedOut "Registry timed out"), tr)) ∧
    (∀ e, env.waitAt 0 = .failed e →
       ∃ tr, createInterface cid env (fuel + 1) = some (.error e, tr)) := by
  obtain ⟨cn, hcn⟩ := hcn
  refine ⟨?_, ?_, ?_⟩
  · intro hw
    conv_lhs => unfold waitLoop
    rw [hval, hw]
    rfl
  · intro hw
    have hwl : waitLoop env.ifTypeAt env.waitAt (fuel + 1) 0
        = some (.error (.timedOut "Registry timed out")) := by
      unfold waitLoop
      rw [hval, hw]
      rfl
    have hIA : installAndResolve env (fuel + 1)
        = some (.error (.timedOut "Registry timed out"), installTrace env) := by
      unfold installAndResolve
      rw [hreg, hinst, hkey, hwl]
    obtain ⟨k, hk⟩ : ∃ k, v = k + 1 := ⟨v - 1, by omega⟩
    subst hk
    exact ⟨_, by
      unfold createInterface createBody
      rw [hcl, hcn, hnode, hsel, hhw, hbl, hdl, hIA]
      rfl⟩
  · intro e hw
    have hwl : waitLoop env.ifTypeAt env.waitAt (fuel + 1) 0
        = some (.error e) := by
      unfold waitLoop
      rw [hval, hw]
      rfl
    have hIA : installAndResolve env (fuel + 1)
        = some (.error e, installTrace env) := by
      unfold installAndResolve
      rw [hreg, hinst, hkey, hwl]
    obtain ⟨k, hk⟩ : ∃ k, v = k + 1 := ⟨v - 1, by omega⟩
    subst hk
    exact ⟨_, by
      unfold createInterface createBody
      rw [hcl, hcn, hnode, hsel, hhw, hbl, hdl, hIA]
      rfl⟩

/-- C1 witness: the amended behavior at a concrete environment whose
first wait times out while `*IfType` is absent. -/
theorem c1_wait_timeout_fatal_witness :
    ∃ tr, createInterface "tap0901"
      ⟨.ok (), .ok "Net", .ok (), .ok (), .ok (), .ok (),
       [.ok ⟨7, .ok "tap0901", true⟩], .ok (), .ok (), .ok (), .ok (), .ok (), .ok (),
       fun _ => .error (.notFound "absent"), fun _ => .ok 42, fun _ => .timeout⟩ 5
      = some (.error (.timedOut "Registry timed out"), tr) :=
  ((c1_wait_timeout_fatal "tap0901"
    ⟨.ok (), .ok "Net", .ok (), .ok (), .ok (), .ok (),
     [.ok ⟨7, .ok "tap0901", true⟩], .ok (), .ok (), .ok (), .ok (), .ok (), .ok (),
     fun _ => .error (.notFound "absent"), fun _ => .ok 42, fun _ => .timeout⟩
    4 (.notFound "absent") 7 (some 0) [.selectDriver 0]
    rfl ⟨"Net", rfl⟩ rfl rfl rfl rfl rfl (by decide)
    rfl rfl rfl rfl).2.1 rfl)

/-- C3 counterexample: with no driver candidate at all, the NotFound of
`create_interface` is returned only after the device node has been
created inside the fresh device-info set (`createNode` precedes the
return in the trace); no installer step runs and both the driver list
and the set are destroyed. -/
theorem c3_notfound_after_node_counterexample :
    createInterface "tap0901"
      ⟨.ok (), .ok "Net", .ok (), .ok (), .ok (), .ok (),
       [], .ok (), .ok (), .ok (), .ok (), .ok (), .ok (),
       fun _ => .ok 6, fun _ => .ok 42, fun _ => .signaled⟩ 5
    = some (.error (.notFound "No driver found"),
      [.acquireSet, .createNode, .buildList, .destroyList, .destroySet]) := by
  rfl

/-- C3 (amended): for every component identifier with no adoptable
driver candidate, `create_interface` returns NotFound; the transient
device node has been created in the set before this return, but no
installer step is ever attempted and the driver list and device-info
set are both destroyed, so no device node is left behind. -/
theorem c3_no_driver_notfound (cid : String) (env : CreateEnv) (fuel : Nat)
    (hcl : env.createList = .ok ()) (hcn : ∃ cn, env.className = .ok cn)
    (hnode : env.createNode = .ok ()) (hsel : env.selectDevice = .ok ())
    (hhw : env.setHwid = .ok ()) (hbl : env.buildList = .ok ())
    (hdec : ∀ e ∈ env.drivers, noDecodeErr e = true)
    (hng : ∀ e ∈ env.drivers, goodCandidate cid e = false) :
    createInterface cid env fuel
      = some (.error (.notFound "No driver found"),
        [.acquireSet, .createNode, .buildList, .destroyList, .destroySet]) := by
  obtain ⟨cn, hcn⟩ := hcn
  have hdl := driverLoop_no_update cid env.drivers 0 0 none [] hdec
    (fun e he hg => absurd hg (by simp [hng e he]))
  unfold createInterface createBody
  simp only [hcl, hcn, hnode, hsel, hhw, hbl, hdl, if_pos rfl]
  simp

/-- C3 witness: the amended statement at a concrete environment with an
empty candidate list. -/
theorem c3_no_driver_notfound_witness :
    createInterface "tap0901"
      ⟨.ok (), .ok "Net", .ok (), .ok (), .ok (), .ok (),
       [], .ok (), .ok (), .ok (), .ok (), .ok (), .ok (),
       fun _ => .ok 6, fun _ => .ok 42, fun _ => .signaled⟩ 3
      = some (.error (.notFound "No driver found"),
        [.acquireSet, .createNode, .buildList, .destroyList, .destroySet]) :=
  c3_no_driver_notfound "tap0901"
    ⟨.ok (), .ok "Net", .ok (), .ok (), .ok (), .ok (),
     [], .ok (), .ok (), .ok (), .ok (), .ok (), .ok (),
     fun _ => .ok 6, fun _ => .ok 42, fun _ => .signaled⟩ 3
    rfl ⟨"Net", rfl⟩ rfl rfl rfl rfl (by simp) (by simp)

/-- C6 counterexample: an enumeration error (OS code 5) at member
index 0 is skipped by `create_interface` — the run continues with the
next index and succeeds — instead of being surfaced to the caller. -/
theorem c6_enum_error_skipped_counterexample :
    createInterface "tap0901"
      ⟨.ok (), .ok "Net", .ok (), .ok (), .ok (), .ok (),
       [.err 5, .ok ⟨7, .ok "tap0901", true⟩], .ok (), .ok (), .ok (), .ok (),
       .ok (), .ok (), fun _ => .ok 6, fun _ => .ok 42, fun _ => .signaled⟩ 5
    = some (.ok (packLuid 6 42),
      [.acquireSet, .createNode, .buildList, .selectDriver 1,
       .installer .registerDevice true, .installer .registerCoinstallers true,
       .installer .installInterfaces true, .installer .installDevice true,
       .openKey, .destroyList, .destroySet]) := by
  rfl

/-- C6 (amended): the candidate sequence yields `none` exactly when the
OS reports `ERROR_NO_MORE_ITEMS`; an enumeration error at an index is
skipped by the selection loop of `create_interface` — the scan resumes
at the next member index — rather than surfaced to its caller. -/
theorem c6_enum_ends_at_nmi (drivers : List DrvEnum) (i : Nat)
    (cid : String) (c : Nat) (rest : List DrvEnum) (idx best : Nat)
    (sel : Option Nat) (evs : List Event) (hc : c ≠ ERROR_NO_MORE_ITEMS) :
    (enum_driver_info drivers i = none ↔
      (drivers.get? i = none ∨ drivers.get? i = some (.err ERROR_NO_MORE_ITEMS))) ∧
    driverLoop cid (.err c :: rest) idx best sel evs
      = driverLoop cid rest (idx + 1) best sel evs := by
  constructor
  · unfold enum_driver_info
    rcases hg : drivers.get? i with _ | e
    · simp
    · cases e with
      | ok d => simp
      | err c2 =>
        by_cases hc2 : c2 = ERROR_NO_MORE_ITEMS <;> simp [hc2]
  · simp [driverLoop, hc]

/-- C6 witness: the amended statement at index 0 of a one-error list
and at a skipped OS error 5 ahead of the matching candidate. -/
theorem c6_enum_ends_at_nmi_witness :
    ((enum_driver_info [.err 5] 0 = none ↔
       (([DrvEnum.err 5] : List DrvEnum).get? 0 = none ∨
        ([DrvEnum.err 5] : List DrvEnum).get? 0 = some (.err ERROR_NO_MORE_ITEMS))) ∧
     driverLoop "tap0901" [.err 5, .ok ⟨7, .ok "tap0901", true⟩] 0 0 none []
       = driverLoop "tap0901" [.ok ⟨7, .ok "tap0901", true⟩] 1 0 none []) :=
  c6_enum_ends_at_nmi [.err 5] 0 "tap0901" 5 [.ok ⟨7, .ok "tap0901", true⟩]
    0 0 none [] (by decide)

/-- If every open attempt fails and some iteration within fuel sees the
deadline exceeded, the retry loop returns the timeout error. -/
theorem openRetryLoop_timeout (times : Nat → Nat) (opens : Nat → Option Nat) :
    ∀ fuel n, (∀ m, opens m = none) →
      (∃ j, n ≤ j ∧ j < n + fuel ∧ times j > 2000) →
      openRetryLoop times opens fuel n
        = some (.error (.timedOut "Interface timed out")) := by
  intro fuel
  induction fuel with
  | zero =>
    intro n _ hj
    obtain ⟨j, hj1, hj2, _⟩ := hj
    omega
  | succ f ih =>
    intro n hopen hj
    obtain ⟨j, hj1, hj2, hjt⟩ := hj
    unfold openRetryLoop
    by_cases ht : times n > 2000
    · rw [if_pos ht]
    · rw [if_neg ht, hopen n]
      have hne : j ≠ n := by
        intro hh
        rw [hh] at hjt
        exact ht hjt
      exact ih (n + 1) hopen ⟨j, by omega, by omega, hjt⟩

/-- C4: with all open attempts failing, the retry loop of
`Device::create` does not block past the wall-clock deadline: it
returns `Err(TimedOut)` once an iteration sees more than 2000 ms
elapsed; a failure seen before the deadline is retried at the next
iteration rather than propagated; and `Device::create` reports exactly
that `TimedOut` after a successful `create_interface`. -/
theorem c4_deviceCreate_timeout (times : Nat → Nat) (opens : Nat → Option Nat)
    (fuel j : Nat) (hopen : ∀ m, opens m = none)
    (hjf : j < fuel) (hjt : times j > 2000) :
    openRetryLoop times opens fuel 0
      = some (.error (.timedOut "Interface timed out")) ∧
    (∀ m, times m ≤ 2000 →
       openRetryLoop times opens (fuel + 1) m
         = openRetryLoop times opens fuel (m + 1)) ∧
    (∀ cid env cfuel luid tr,
       createInterface cid env cfuel = some (.ok luid, tr) →
       deviceCreate cid env cfuel times opens fuel
         = some (.error (.timedOut "Interface timed out"))) := by
  have hmain := openRetryLoop_timeout times opens fuel 0 hopen
    ⟨j, Nat.zero_le j, by omega, hjt⟩
  refine ⟨hmain, ?_, ?_⟩
  · intro m hm
    conv_lhs => unfold openRetryLoop
    rw [if_neg (Nat.not_lt.mpr hm), hopen m]
  · intro cid env cfuel luid tr hci
    unfold deviceCreate
    rw [hci, hmain]

/-- C4 witness: elapsed time 0, 1000, 2000, 3000, … ms and every open
failing: the loop exits with the timeout error. -/
theorem c4_deviceCreate_timeout_witness :
    openRetryLoop (fun n => n * 1000) (fun _ => none) 5 0
      = some (.error (.timedOut "Interface timed out")) :=
  (c4_deviceCreate_timeout (fun n => n * 1000) (fun _ => none) 5 3
    (fun _ => rfl) (by omega) (by decide)).1

/-- The check scan succeeds exactly when some enumerated device
matches, provided the OS enumeration has no premature end marker. -/
theorem checkScan_iff (cid : String) (luid : Nat) (l : List DevEnum)
    (hnmi : ∀ e ∈ l, devNoNMI e = true) :
    (checkScan cid luid l = .ok () ↔ ∃ e ∈ l, matchesDev cid luid e = true) := by
  induction l with
  | nil => simp [checkScan]
  | cons e rest ih =>
    have hnmi' : ∀ x ∈ rest, devNoNMI x = true := fun x hx => hnmi x (.tail _ hx)
    cases e with
    | err c =>
      have hc : c ≠ ERROR_NO_MORE_ITEMS := by
        simpa [devNoNMI] using hnmi _ (.head _)
      simp only [checkScan, if_neg hc]
      rw [ih hnmi']
      constructor
      · rintro ⟨x, hx, hm⟩
        exact ⟨x, .tail _ hx, hm⟩
      · rintro ⟨x, hx, hm⟩
        rcases List.mem_cons.mp hx with rfl | hx2
        · simp [matchesDev] at hm
        · exact ⟨x, hx2, hm⟩
    | ok d =>
      by_cases hm : matchesDev cid luid (.ok d) = true
      · simp only [checkScan, if_pos hm]
        exact ⟨fun _ => ⟨.ok d, .head _, hm⟩, fun _ => trivial⟩
      · simp only [checkScan, if_neg hm]
        rw [ih hnmi']
        constructor
        · rintro ⟨x, hx, hmx⟩
          exact ⟨x, .tail _ hx, hmx⟩
        · rintro ⟨x, hx, hmx⟩
          rcases List.mem_cons.mp hx with rfl | hx2
          · exact absurd hmx hm
          · exact ⟨x, hx2, hmx⟩

/-- With no matching device the check scan reports the NotFound of
src/iface.rs line 207. -/
theorem checkScan_notFound (cid : String) (luid : Nat) (l : List DevEnum)
    (hall : ∀ e ∈ l, matchesDev cid luid e = false) :
    checkScan cid luid l = .error (.notFound "Device not found") := by
  induction l with
  | nil => rfl
  | cons e rest ih =>
    have hall' : ∀ x ∈ rest, matchesDev cid luid x = false :=
      fun x hx => hall x (.tail _ hx)
    cases e with
    | err c =>
      by_cases hc : c = ERROR_NO_MORE_ITEMS
      · simp [checkScan, hc]
      · simp only [checkScan, if_neg hc]
        exact ih hall'
    | ok d =>
      have hm : ¬ matchesDev cid luid (.ok d) = true := by
        simp [hall _ (.head _)]
      simp only [checkScan, if_neg hm]
      exact ih hall'

/-- With no matching device the delete scan reports NotFound and never
invokes the installer. -/
theorem deleteScan_notFound (cid : String) (luid : Nat)
    (rm : Except IoError Unit) (l : List DevEnum)
    (hall : ∀ e ∈ l, matchesDev cid luid e = false) :
    deleteScan cid luid rm l = (.error (.notFound "Device not found"), []) := by
  induction l with
  | nil => rfl
  | cons e rest ih =>
    have hall' : ∀ x ∈ rest, matchesDev cid luid x = false :=
      fun x hx => hall x (.tail _ hx)
    cases e with
    | err c =>
      by_cases hc : c = ERROR_NO_MORE_ITEMS
      · simp [deleteScan, hc]
      · simp only [deleteScan, if_neg hc]
        exact ih hall'
    | ok d =>
      have hm : ¬ matchesDev cid luid (.ok d) = true := by
        simp [hall _ (.head _)]
      simp only [deleteScan, if_neg hm]
      exact ih hall'

/-- The delete scan's trace is empty or the single `DIF_REMOVE`
invocation. -/
theorem deleteScan_trace (cid : String) (luid : Nat)
    (rm : Except IoError Unit) (l : List DevEnum) :
    (deleteScan cid luid rm l).2 = [] ∨
      (deleteScan cid luid rm l).2 = [.installer .remove (isOkB rm)] := by
  induction l with
  | nil => exact Or.inl rfl
  | cons e rest ih =>
    cases e with
    | err c =>
      by_cases hc : c = ERROR_NO_MORE_ITEMS
      · simp [deleteScan, hc]
      · simp only [deleteScan, if_neg hc]
        exact ih
    | ok d =>
      by_cases hm : matchesDev cid luid (.ok d) = true
      · simp [deleteScan, hm]
      · simp only [deleteScan, if_neg hm]
        exact ih

/-- C7: `check_interface` succeeds exactly when some present device of
the class matches both the component identifier (case-insensitively)
and the full 64-bit identifier; when no present device matches,
`check_interface`, `Device::open` and `delete_interface` all report
the NotFound error. -/
theorem c7_check_iff_match (cid : String) (luid : Nat) (env : ScanEnv)
    (hg : env.getDevs = .ok ())
    (hnmi : ∀ e ∈ env.devs, devNoNMI e = true) :
    ((checkInterface cid luid env).1 = .ok () ↔
       ∃ e ∈ env.devs, matchesDev cid luid e = true) ∧
    ((∀ e ∈ env.devs, matchesDev cid luid e = false) →
       (checkInterface cid luid env).1 = .error (.notFound "Device not found") ∧
       (deleteInterface cid luid env).1 = .error (.notFound "Device not found") ∧
       ∀ openRes, deviceOpen cid (.ok luid) env openRes
         = .error (.notFound "Device not found")) := by
  have hcheck : (checkInterface cid luid env).1 = checkScan cid luid env.devs := by
    unfold checkInterface
    rw [hg]
  constructor
  · rw [hcheck]
    exact checkScan_iff cid luid env.devs hnmi
  · intro hall
    have h1 := checkScan_notFound cid luid env.devs hall
    have h2 := deleteScan_notFound cid luid env.removeRes env.devs hall
    refine ⟨by rw [hcheck, h1], ?_, ?_⟩
    · unfold deleteInterface
      rw [hg, h2]
    · intro openRes
      show (match (checkInterface cid luid env).1 with
            | .error e => (.error e : Except IoError (Nat × Nat))
            | .ok _ =>
              match openRes with
              | .error e => .error e
              | .ok h => .ok (luid, h))
        = .error (.notFound "Device not found")
      rw [hcheck, h1]

/-- C7 witness: an adapter with identifier `packLuid 6 42` exists but
its hardware ID is a different vendor's — all three operations report
NotFound. -/
theorem c7_check_iff_match_witness :
    (checkInterface "tap0901" (packLuid 6 42)
       ⟨.ok (), [.ok ⟨some "othervendor0001", true, some 6, some 42⟩], .ok ()⟩).1
      = .error (.notFound "Device not found") ∧
    deviceOpen "tap0901" (.ok (packLuid 6 42))
       ⟨.ok (), [.ok ⟨some "othervendor0001", true, some 6, some 42⟩], .ok ()⟩
       (.ok 7)
      = .error (.notFound "Device not found") := by
  have h := (c7_check_iff_match "tap0901" (packLuid 6 42)
    ⟨.ok (), [.ok ⟨some "othervendor0001", true, some 6, some 42⟩], .ok ()⟩
    rfl (by decide)).2 (by decide)
  exact ⟨h.1, h.2.2 (.ok 7)⟩

/-- C9: in every terminating run of `create_interface`,
`check_interface` and `delete_interface`, the device-info set acquired
at the start is destroyed exactly once (and never acquired, never
destroyed when its acquisition fails), and the driver-info list of
`create_interface` is destroyed exactly once whenever it was built. -/
theorem c9_sets_destroyed_once (cid : String) (env : CreateEnv) (fuel : Nat)
    (luid : Nat) (senv : ScanEnv) :
    (∀ res tr, createInterface cid env fuel = some (res, tr) →
       (Event.acquireSet ∈ tr → tr.count Event.destroySet = 1) ∧
       (Event.buildList ∈ tr → tr.count Event.destroyList = 1)) ∧
    (senv.getDevs = .ok () →
       (checkInterface cid luid senv).2.count Event.destroySet = 1 ∧
       (deleteInterface cid luid senv).2.count Event.destroySet = 1) ∧
    (∀ e, senv.getDevs = .error e →
       (checkInterface cid luid senv).2 = [] ∧
       (deleteInterface cid luid senv).2 = []) := by
  refine ⟨?_, ?_, ?_⟩
  · intro res tr h
    unfold createInterface at h
    split at h
    · simp only [Option.some.injEq, Prod.mk.injEq] at h
      obtain ⟨h1, h2⟩ := h
      subst h1
      subst h2
      simp
    · split at h
      · exact absurd h (by simp)
      · rename_i res0 tr0 hcb
        simp only [Option.some.injEq, Prod.mk.injEq] at h
        obtain ⟨h1, h2⟩ := h
        subst h1
        subst h2
        unfold createBody at hcb
        split at hcb
        · simp only [Option.some.injEq, Prod.mk.injEq] at hcb
          obtain ⟨hr0, ht0⟩ := hcb
          subst hr0
          subst ht0
          exact ⟨fun _ => by decide, fun hb => absurd hb (by decide)⟩
        · split at hcb
          · simp only [Option.some.injEq, Prod.mk.injEq] at hcb
            obtain ⟨hr0, ht0⟩ := hcb
            subst hr0
            subst ht0
            exact ⟨fun _ => by decide, fun hb => absurd hb (by decide)⟩
          · split at hcb
            · simp only [Option.some.injEq, Prod.mk.injEq] at hcb
              obtain ⟨hr0, ht0⟩ := hcb
              subst hr0
              subst ht0
              exact ⟨fun _ => by decide, fun hb => absurd hb (by decide)⟩
            · split at hcb
              · simp only [Option.some.injEq, Prod.mk.injEq] at hcb
                obtain ⟨hr0, ht0⟩ := hcb
                subst hr0
                subst ht0
                exact ⟨fun _ => by decide, fun hb => absurd hb (by decide)⟩
              · split at hcb
                · simp only [Option.some.injEq, Prod.mk.injEq] at hcb
                  obtain ⟨hr0, ht0⟩ := hcb
                  subst hr0
                  subst ht0
                  exact ⟨fun _ => by decide, fun hb => absurd hb (by decide)⟩
                · split at hcb
                  · -- driver loop decode error
                    rename_i e0 evs hdl
                    obtain ⟨ext, hexteq, hall⟩ := driverLoop_trace cid env.drivers 0 0 none []
                    rw [hdl] at hexteq
                    simp only [List.nil_append] at hexteq
                    subst hexteq
                    have hs : Event.destroySet ∉ evs := fun hmem => by
                      obtain ⟨i, hi⟩ := hall _ hmem
                      simp at hi
                    have hl : Event.destroyList ∉ evs := fun hmem => by
                      obtain ⟨i, hi⟩ := hall _ hmem
                      simp at hi
                    simp only [Option.some.injEq, Prod.mk.injEq] at hcb
                    obtain ⟨hr0, ht0⟩ := hcb
                    subst hr0
                    subst ht0
                    refine ⟨fun _ => ?_, fun _ => ?_⟩
                    · simp [List.count_cons, List.count_append,
                        List.count_eq_zero_of_not_mem hs]
                    · simp [List.count_cons, List.count_append,
                        List.count_eq_zero_of_not_mem hl]
                  · rename_i best sel evs hdl
                    obtain ⟨ext, hexteq, hall⟩ := driverLoop_trace cid env.drivers 0 0 none []
                    rw [hdl] at hexteq
                    simp only [List.nil_append] at hexteq
                    subst hexteq
                    have hs : Event.destroySet ∉ evs := fun hmem => by
                      obtain ⟨i, hi⟩ := hall _ hmem
                      simp at hi
                    have hl : Event.destroyList ∉ evs := fun hmem => by
                      obtain ⟨i, hi⟩ := hall _ hmem
                      simp at hi
                    split at hcb
                    · simp only [Option.some.injEq, Prod.mk.injEq] at hcb
                      obtain ⟨hr0, ht0⟩ := hcb
                      subst hr0
                      subst ht0
                      refine ⟨fun _ => ?_, fun _ => ?_⟩
                      · simp [List.count_cons, List.count_append,
                          List.count_eq_zero_of_not_mem hs]
                      · simp [List.count_cons, List.count_append,
                          List.count_eq_zero_of_not_mem hl]
                    · split at hcb
                      · exact absurd hcb (by simp)
                      · rename_i ti tr2 hIR
                        have htr2 := installAndResolve_trace env fuel _ _ hIR
                        have hs2 : Event.destroySet ∉ tr2 := fun hmem => by
                          rcases htr2 _ hmem with ⟨s2, b2, heq2, -⟩ | heq2 <;> simp at heq2
                        have hl2 : Event.destroyList ∉ tr2 := fun hmem => by
                          rcases htr2 _ hmem with ⟨s2, b2, heq2, -⟩ | heq2 <;> simp at heq2
                        simp only [Option.some.injEq, Prod.mk.injEq] at hcb
                        obtain ⟨hr0, ht0⟩ := hcb
                        subst hr0
                        subst ht0
                        refine ⟨fun _ => ?_, fun _ => ?_⟩
                        · simp [List.count_cons, List.count_append,
                            List.count_eq_zero_of_not_mem hs,
                            List.count_eq_zero_of_not_mem hs2]
                        · simp [List.count_cons, List.count_append,
                            List.count_eq_zero_of_not_mem hl,
                            List.count_eq_zero_of_not_mem hl2]
                      · rename_i e0 tr2 hIR
                        have htr2 := installAndResolve_trace env fuel _ _ hIR
                        have hs2 : Event.destroySet ∉ tr2 := fun hmem => by
                          rcases htr2 _ hmem with ⟨s2, b2, heq2, -⟩ | heq2 <;> simp at heq2
                        have hl2 : Event.destroyList ∉ tr2 := fun hmem => by
                          rcases htr2 _ hmem with ⟨s2, b2, heq2, -⟩ | heq2 <;> simp at heq2
                        simp only [Option.some.injEq, Prod.mk.injEq] at hcb
                        obtain ⟨hr0, ht0⟩ := hcb
                        subst hr0
                        subst ht0
                        refine ⟨fun _ => ?_, fun _ => ?_⟩
                        · simp [List.count_cons, List.count_append,
                            List.count_eq_zero_of_not_mem hs,
                            List.count_eq_zero_of_not_mem hs2]
                        · simp [List.count_cons, List.count_append,
                            List.count_eq_zero_of_not_mem hl,
                            List.count_eq_zero_of_not_mem hl2]
  · intro hg
    constructor
    · unfold checkInterface
      rw [hg]
      rfl
    · unfold deleteInterface
      rw [hg]
      rcases deleteScan_trace cid luid senv.removeRes senv.devs with hds | hds
      · rcases hsplit : deleteScan cid luid senv.removeRes senv.devs with ⟨r0, evs0⟩
        rw [hsplit] at hds
        simp at hds
        subst hds
        simp
      · rcases hsplit : deleteScan cid luid senv.removeRes senv.devs with ⟨r0, evs0⟩
        rw [hsplit] at hds
        simp at hds
        subst hds
        simp
  · intro e hg
    constructor
    · unfold checkInterface
      rw [hg]
    · unfold deleteInterface
      rw [hg]

/-- C5 witness: matching candidates with versions 3, 7, 5 — the loop
selects the version-7 candidate (index 1). -/
theorem c5_driverLoop_selects_max_witness :
    ∃ evs2, driverLoop "tap0901"
      [.ok ⟨3, .ok "tap0901", true⟩, .ok ⟨7, .ok "TAP0901", true⟩,
       .ok ⟨5, .ok "tap0901", true⟩] 0 0 none []
      = (.ok (7, some 1), evs2) := by
  have h := c5_driverLoop_selects_max "tap0901"
    [DrvEnum.ok ⟨3, .ok "tap0901", true⟩] [DrvEnum.ok ⟨5, .ok "tap0901", true⟩]
    (DrvEnum.ok ⟨7, .ok "TAP0901", true⟩) 7 0 0 none []
    (by decide) (by decide) (by decide)
    (by decide) (by decide) (by decide) (by decide) (by decide)
  simpa using h

end TapWindows
